import Mathlib

/-!
Shallow embedding of the SCLIP desktop realtime layer:
  - the zustand store reducer `handleMessage` (useRealtimeStore, bundled in
    src/apps/desktop/src/hooks/useWebSocket.ts after the separator),
  - the connection manager `connect` / `ws.onclose` logic
    (src/apps/desktop/src/hooks/useWebSocket.ts),
  - the typewriter presentation hook
    (src/apps/desktop/src/hooks/useStreamingMessage.ts).

JavaScript values are modelled with `Option` for possibly-absent fields and
explicit truthiness helpers (`||`, `??`, `&&` on optionals).  The field
`is_partial` of the TS `Message` interface is rendered here as `isPartial`
and `is_complete` as `isCompleteFlag` (identifier restrictions); everything
else keeps the source names.  Nondeterministic ambient values
(`Date.now()`, `Math.random()`, `new Date().toISOString()`) are threaded
through an explicit `Gen` environment.
-/

namespace SCLIP

/-- Truthiness of an optional JS string: `undefined` and `""` are falsy. -/
def truthyS : Option String → Bool
  | some s => s ≠ ""
  | none => false

/-- Truthiness of an optional JS boolean: `undefined` is falsy. -/
def truthyB : Option Bool → Bool
  | some b => b
  | none => false

/-- JS `a || b` for an optional string `a` with a plain-string default `b`. -/
def jsOrS : Option String → String → String
  | some s, b => if s = "" then b else s
  | none, b => b

/-- JS `a || b` for an optional number `a` (0 is falsy) with default `b`. -/
def jsOrN : Option Nat → Nat → Nat
  | some n, b => if n = 0 then b else n
  | none, b => b

/-- JS `a || b` where both sides are possibly-absent strings (e.g.
`file.url || file.thumbnail`); the result may itself be absent. -/
def jsOrOpt (a b : Option String) : Option String :=
  if truthyS a then a else b

/-- JS `s.includes(sub)` for a non-empty `sub`. -/
def includesStr (s sub : String) : Bool :=
  (s.splitOn sub).length > 1

/-- Shallow-merge of a field: a field present on the new object wins,
otherwise the prior object's field is kept (JS `{...old, ...new}`). -/
def mergeO {α : Type} : Option α → Option α → Option α
  | some v, _ => some v
  | none, o => o

/-- Environment for the ambient nondeterminism used when minting ids and
timestamps (`Date.now()`, `Math.random()`, `new Date().toISOString()`). -/
structure Gen where
  nowMs : Nat
  nowIso : String
  rand : String
deriving Repr, DecidableEq

/-- One entry of `result.downloaded_files` / `data.downloaded_files`. -/
structure DFile where
  name : Option String := none
  type : Option String := none
  path : Option String := none
  url : Option String := none
  size : Option Nat := none
  thumbnail : Option String := none
  source : Option String := none
deriving Repr, DecidableEq

/-- One entry of `result.metadata`. -/
structure MetaEntry where
  title : Option String := none
  file_type : Option String := none
  file_size : Option Nat := none
deriving Repr, DecidableEq

/-- The `result` payload of a `tool_result` message (fields the reducer
reads). -/
structure ResultPayload where
  script_text : Option String := none
  message : Option String := none
  downloaded_files : Option (List DFile) := none
  file_paths : Option (List String) := none
  metadata : Option (List MetaEntry) := none
  source_types : Option (List String) := none
  audio_path : Option String := none
  video_path : Option String := none
  thumbnail : Option String := none
deriving Repr, DecidableEq

/-- The `data` payload of a `gui_update` message. -/
structure GuiData where
  script_content : Option String := none
  downloaded_files : Option (List DFile) := none
  voiceover_file : Option String := none
  final_video : Option String := none
  thumbnail : Option String := none
deriving Repr, DecidableEq

/-- The wire `Message` (interface `Message` in useRealtimeStore).  `type` is
the discriminant string (`""` models an absent discriminant, which falls to
the reducer's default branch).  `isPartial` models `is_partial`,
`isCompleteFlag` models `is_complete`; `id` and `role` are extra fields the
reducer itself mints on synthetic informational messages. -/
structure Message where
  type : String := ""
  content : Option String := none
  message : Option String := none
  detail : Option String := none
  session_id : Option String := none
  timestamp : Option String := none
  message_id : Option String := none
  tool : Option String := none
  args : Option (List (String × String)) := none
  step : Option String := none
  description : Option String := none
  result : Option ResultPayload := none
  success : Option Bool := none
  error : Option String := none
  percent : Option Nat := none
  status : Option String := none
  isPartial : Option Bool := none
  isCompleteFlag : Option Bool := none
  update_type : Option String := none
  data : Option GuiData := none
  preferences : Option (List (String × String)) := none
  id : Option String := none
  role : Option String := none
deriving Repr, DecidableEq

instance : Inhabited Message := ⟨{}⟩

/-- Shallow merge `{...old, ...new}` of two messages, field by field. -/
def mergeMsg (old new : Message) : Message where
  type := if new.type = "" then old.type else new.type
  content := mergeO new.content old.content
  message := mergeO new.message old.message
  detail := mergeO new.detail old.detail
  session_id := mergeO new.session_id old.session_id
  timestamp := mergeO new.timestamp old.timestamp
  message_id := mergeO new.message_id old.message_id
  tool := mergeO new.tool old.tool
  args := mergeO new.args old.args
  step := mergeO new.step old.step
  description := mergeO new.description old.description
  result := mergeO new.result old.result
  success := mergeO new.success old.success
  error := mergeO new.error old.error
  percent := mergeO new.percent old.percent
  status := mergeO new.status old.status
  isPartial := mergeO new.isPartial old.isPartial
  isCompleteFlag := mergeO new.isCompleteFlag old.isCompleteFlag
  update_type := mergeO new.update_type old.update_type
  data := mergeO new.data old.data
  preferences := mergeO new.preferences old.preferences
  id := mergeO new.id old.id
  role := mergeO new.role old.role

/-- Store entry `ToolCall` (interface `ToolCall`). -/
structure ToolCall where
  tool : String
  args : List (String × String)
  step : String
  description : String
deriving Repr, DecidableEq

/-- Store entry `ToolResult` (interface `ToolResult`). -/
structure ToolResult where
  tool : String
  step : String
  result : ResultPayload
  success : Bool
  error : Option String
deriving Repr, DecidableEq

/-- Store entry `Progress` (interface `Progress`). -/
structure Progress where
  percent : Nat
  status : String
  step : String
deriving Repr, DecidableEq

/-- Store entry `ScriptContent` (interface `ScriptContent`). -/
structure ScriptContent where
  id : String
  content : String
  timestamp : String
  tool : String
deriving Repr, DecidableEq

/-- Store entry `ProjectFile` (interface `ProjectFile`); `type` is kept as a
raw string because the reducer writes strings coming straight off the wire
into it. -/
structure ProjectFile where
  id : String
  name : String
  type : String
  path : Option String := none
  url : Option String := none
  size : Nat := 0
  timestamp : String := ""
  thumbnail : Option String := none
  duration : Option Nat := none
  source : Option String := none
deriving Repr, DecidableEq

/-- Store entry `VideoPreview` (interface `VideoPreview`). -/
structure VideoPreview where
  id : String
  path : String
  timestamp : String
  status : String
  thumbnail : Option String := none
deriving Repr, DecidableEq

/-- Connection status enum of the store. -/
inductive ConnStatus where
  | connecting
  | connected
  | reconnecting
  | disconnected
deriving Repr, DecidableEq

/-- The `userContext` record of the store; `preferences` is an ordered
association object. -/
structure UserContext where
  style : String
  tone : String
  length : String
  preferences : List (String × String)
deriving Repr, DecidableEq

/-- JS object spread `{...a, ...b}` on association objects: keys of `a` keep
their position (values overridden by `b` where present), keys of `b` not in
`a` are appended in order. -/
def jsMergeA (a b : List (String × String)) : List (String × String) :=
  a.map (fun p => match b.lookup p.1 with
    | some v => (p.1, v)
    | none => p) ++ b.filter (fun q => ¬ a.any (fun p => p.1 = q.1))

/-- The realtime store state (interface `RealtimeStore`, state part). -/
structure Store where
  connectionStatus : ConnStatus
  error : Option String
  messages : List Message
  toolCalls : List ToolCall
  toolResults : List ToolResult
  progress : Progress
  scripts : List ScriptContent
  projectFiles : List ProjectFile
  videoPreviews : List VideoPreview
  selectedFile : Option ProjectFile
  userContext : UserContext
deriving Repr, DecidableEq

/-- Initial state of the store (the literal in `create(...)`). -/
def initialStore : Store where
  connectionStatus := ConnStatus.disconnected
  error := none
  messages := []
  toolCalls := []
  toolResults := []
  progress := { percent := 0, status := "", step := "" }
  scripts := []
  projectFiles := []
  videoPreviews := []
  selectedFile := none
  userContext :=
    { style := "cinematic", tone := "professional", length := "medium"
      preferences := [] }

/-- Step 1 of `handleMessage`: append-or-replace into the message log.
`if (msg.message_id && msg.is_partial)` finds the first entry with the same
`message_id` (`Array.prototype.findIndex`) and shallow-merges the incoming
message over it; in every other case the message is pushed at the end. -/
def appendOrReplace (log : List Message) (msg : Message) : List Message :=
  if truthyS msg.message_id && truthyB msg.isPartial then
    match log.findIdx? (fun m => m.message_id == msg.message_id) with
    | some i => log.set i (mergeMsg (log.getD i default) msg)
    | none => log ++ [msg]
  else log ++ [msg]

/-- ProjectFile minted from one `downloaded_files` entry (identical object
literal in the `tool_result`/`broll_finder` and `gui_update`/
`media_downloaded` branches). -/
def dfileToProject (gen : Gen) (file : DFile) : ProjectFile where
  id := "file_" ++ toString gen.nowMs ++ "_" ++ gen.rand
  name := jsOrS file.name "B-roll Media"
  type := jsOrS file.type "image"
  path := file.path
  url := file.url
  size := jsOrN file.size 0
  timestamp := gen.nowIso
  thumbnail := jsOrOpt file.url file.thumbnail
  source := some (jsOrS file.source "unknown")

/-- The display URL heuristically synthesized from a file path in the
`file_paths` branch of the `broll_finder` result handler. -/
def brollUrl (filePath : String) : String :=
  let filename :=
    jsOrS ((filePath.splitOn "/").getLast?)
      (jsOrS ((filePath.splitOn "\\").getLast?) "")
  let projectId :=
    if includesStr filePath "Projects" then
      jsOrS (((filePath.splitOn "Projects/").get? 1).bind
        (fun s => (s.splitOn "/").get? 0)) "default"
    else "default"
  "http://127.0.0.1:8001/api/projects/" ++ projectId ++ "/broll/" ++ filename

/-- ProjectFile minted from one `file_paths` entry with its index. -/
def pathToProject (gen : Gen) (r : ResultPayload) (index : Nat)
    (filePath : String) : ProjectFile :=
  let metadata := (r.metadata.bind (fun ms => ms.get? index)).getD {}
  let imageUrl := brollUrl filePath
  { id := "file_" ++ toString gen.nowMs ++ "_" ++ gen.rand
    name := jsOrS metadata.title ("B-roll Media " ++ toString (index + 1))
    type := jsOrS (metadata.file_type.map String.toLower) "image"
    path := some filePath
    url := some imageUrl
    size := jsOrN metadata.file_size 0
    timestamp := gen.nowIso
    thumbnail := some imageUrl
    source := some (jsOrS (r.source_types.bind (fun ss => ss.get? index)) "unknown") }

/-- The synthetic informational message pushed when a `broll_finder` result
carries a truthy `result.message`. -/
def brollInfoMessage (gen : Gen) (text : String) : Message where
  id := some ("msg_" ++ toString gen.nowMs)
  role := some "assistant"
  content := some text
  timestamp := some gen.nowIso
  type := "informational"

/-- Guard `msg.tool === 'script_writer' && msg.result.script_text`. -/
def scriptWriterGuard (msg : Message) (r : ResultPayload) : Bool :=
  msg.tool == some "script_writer" && truthyS r.script_text

/-- Guard `msg.tool === 'broll_finder' && msg.result`. -/
def brollGuard (msg : Message) : Bool :=
  msg.tool == some "broll_finder" && msg.result.isSome

/-- Guard `msg.result.downloaded_files && msg.result.downloaded_files.length > 0`. -/
def dlGuard (r : ResultPayload) : Bool :=
  r.downloaded_files.isSome && (r.downloaded_files.getD []).length > 0

/-- Guard `msg.result.file_paths && ... && (!downloaded_files || downloaded_files.length === 0)`. -/
def fpGuard (r : ResultPayload) : Bool :=
  r.file_paths.isSome && (r.file_paths.getD []).length > 0 &&
    (!r.downloaded_files.isSome || (r.downloaded_files.getD []).length == 0)

/-- The ScriptContent entry pushed for generated script text. -/
def scriptEntry (gen : Gen) (content : String) : ScriptContent where
  id := "script_" ++ toString gen.nowMs
  content := content
  timestamp := gen.nowIso
  tool := "script_writer"

/-- Scripts after the `script_writer` branch of a `tool_result`. -/
def toolResultScripts (gen : Gen) (msg : Message) (r : ResultPayload)
    (scripts : List ScriptContent) : List ScriptContent :=
  if scriptWriterGuard msg r then
    scripts ++ [scriptEntry gen (r.script_text.getD "")]
  else scripts

/-- Project files after the `script_writer`, `broll_finder` and
`voiceover_generator` branches of a `tool_result`, applied in source
order. -/
def toolResultProjectFiles (gen : Gen) (msg : Message) (r : ResultPayload)
    (projectFiles : List ProjectFile) : List ProjectFile :=
  let projectFiles :=
    if scriptWriterGuard msg r then
      projectFiles.filter (fun file => ¬ (file.type = "script"))
    else projectFiles
  let projectFiles :=
    if brollGuard msg && dlGuard r then
      projectFiles ++ (r.downloaded_files.getD []).map (dfileToProject gen)
    else projectFiles
  let projectFiles :=
    if brollGuard msg && fpGuard r then
      projectFiles ++
        (r.file_paths.getD []).enum.map (fun p => pathToProject gen r p.1 p.2)
    else projectFiles
  if msg.tool == some "voiceover_generator" && truthyS r.audio_path then
    projectFiles ++ [{ id := "voiceover_" ++ toString gen.nowMs
                       name := "Generated Voiceover"
                       type := "voiceover"
                       path := r.audio_path
                       size := 0
                       timestamp := gen.nowIso }]
  else projectFiles

/-- Message log after the `broll_finder` branch of a `tool_result` (the
`if (msg.result.message)` push). -/
def toolResultMessages (gen : Gen) (msg : Message) (r : ResultPayload)
    (messages : List Message) : List Message :=
  if brollGuard msg && truthyS r.message then
    messages ++ [brollInfoMessage gen (r.message.getD "")]
  else messages

/-- The ToolResult entry built at the top of the `tool_result` case. -/
def mkToolResult (msg : Message) : ToolResult where
  tool := jsOrS msg.tool ""
  step := jsOrS msg.step ""
  result := msg.result.getD {}
  success := truthyB msg.success
  error := msg.error

/-- The `tool_result` case of the reducer (lines 325-460 of the store).
The sequential mutations of the source's local `projectFiles`, `scripts`
and `messages` variables are factored into the helper functions above,
applied in the same order; `r` stands for the source's `msg.result` reads
(`msg.result.getD {}`). -/
def handleToolResult (gen : Gen) (st : Store) (msg : Message)
    (messages : List Message) : Store :=
  if truthyB msg.success && msg.result.isSome then
    if msg.tool == some "video_processor" &&
        truthyS (msg.result.getD {}).video_path then
      { st with
        toolResults := st.toolResults ++ [mkToolResult msg]
        messages := toolResultMessages gen msg (msg.result.getD {}) messages
        projectFiles :=
          toolResultProjectFiles gen msg (msg.result.getD {}) st.projectFiles ++
            [{ id := "video_" ++ toString gen.nowMs
               name := "Final Video"
               type := "video"
               path := (msg.result.getD {}).video_path
               size := 0
               timestamp := gen.nowIso
               thumbnail := (msg.result.getD {}).thumbnail }]
        scripts := toolResultScripts gen msg (msg.result.getD {}) st.scripts
        videoPreviews :=
          st.videoPreviews ++
            [{ id := "preview_" ++ toString gen.nowMs
               path := (msg.result.getD {}).video_path.getD ""
               timestamp := gen.nowIso
               status := "ready"
               thumbnail := (msg.result.getD {}).thumbnail }] }
    else
      { st with
        toolResults := st.toolResults ++ [mkToolResult msg]
        messages := toolResultMessages gen msg (msg.result.getD {}) messages
        projectFiles :=
          toolResultProjectFiles gen msg (msg.result.getD {}) st.projectFiles
        scripts := toolResultScripts gen msg (msg.result.getD {}) st.scripts }
  else
    { st with
      toolResults := st.toolResults ++ [mkToolResult msg]
      messages
      projectFiles := st.projectFiles
      scripts := st.scripts }

/-- Guard `msg.update_type === "script_created" && msg.data?.script_content`. -/
def guiScriptGuard (msg : Message) : Bool :=
  msg.update_type == some "script_created" &&
    truthyS (msg.data.bind GuiData.script_content)

/-- Scripts after the `script_created` branch of a `gui_update`. -/
def guiScripts (gen : Gen) (msg : Message)
    (scripts : List ScriptContent) : List ScriptContent :=
  if guiScriptGuard msg then
    scripts ++ [scriptEntry gen ((msg.data.bind GuiData.script_content).getD "")]
  else scripts

/-- Project files after the `script_created`, `media_downloaded` and
`voiceover_created` branches of a `gui_update`, applied in source order. -/
def guiProjectFiles (gen : Gen) (msg : Message)
    (projectFiles : List ProjectFile) : List ProjectFile :=
  let projectFiles :=
    if guiScriptGuard msg then
      projectFiles.filter (fun file => ¬ (file.type = "script"))
    else projectFiles
  let projectFiles :=
    if msg.update_type == some "media_downloaded" &&
        (msg.data.bind GuiData.downloaded_files).isSome then
      projectFiles ++
        ((msg.data.bind GuiData.downloaded_files).getD []).map (dfileToProject gen)
    else projectFiles
  if msg.update_type == some "voiceover_created" &&
      truthyS (msg.data.bind GuiData.voiceover_file) then
    projectFiles ++ [{ id := "voiceover_" ++ toString gen.nowMs
                       name := "Generated Voiceover"
                       type := "voiceover"
                       path := msg.data.bind GuiData.voiceover_file
                       size := 0
                       timestamp := gen.nowIso }]
  else projectFiles

/-- The `gui_update` case of the reducer (lines 507-600 of the store). -/
def handleGuiUpdate (gen : Gen) (st : Store) (msg : Message)
    (messages : List Message) : Store :=
  if msg.update_type == some "video_created" &&
      truthyS (msg.data.bind GuiData.final_video) then
    { st with
      messages
      scripts := guiScripts gen msg st.scripts
      projectFiles :=
        guiProjectFiles gen msg st.projectFiles ++
          [{ id := "video_" ++ toString gen.nowMs
             name := "Final Video"
             type := "video"
             path := msg.data.bind GuiData.final_video
             size := 0
             timestamp := gen.nowIso }]
      videoPreviews :=
        st.videoPreviews ++
          [{ id := "preview_" ++ toString gen.nowMs
             path := (msg.data.bind GuiData.final_video).getD ""
             timestamp := gen.nowIso
             status := "ready"
             thumbnail := msg.data.bind GuiData.thumbnail }] }
  else
    { st with
      messages
      scripts := guiScripts gen msg st.scripts
      projectFiles := guiProjectFiles gen msg st.projectFiles }

/-- Step 2 of `handleMessage`: the `switch (msg.type)`.  The passthrough
cases (`ai_message`, `thinking`, `reasoning`, `tool_execution_start`,
`tool_execution_complete`, `tool_progress`, `decision_context`,
`decision_option`, `decision_made`, `approval_received`,
`workflow_complete`, `informational`, `interactive`) and the `default`
branch all return `{ ...state, messages }` and are collapsed into the
final else. -/
def handleByType (gen : Gen) (st : Store) (msg : Message)
    (messages : List Message) : Store :=
  if msg.type = "tool_call" then
    { st with
      toolCalls :=
        st.toolCalls ++ [{ tool := jsOrS msg.tool ""
                           args := msg.args.getD []
                           step := jsOrS msg.step ""
                           description := jsOrS msg.description "" }]
      messages }
  else if msg.type = "tool_result" then
    handleToolResult gen st msg messages
  else if msg.type = "progress" then
    { st with
      progress := { percent := msg.percent.getD st.progress.percent
                    status := jsOrS msg.status ""
                    step := jsOrS msg.step "" }
      messages }
  else if msg.type = "error" then
    { st with
      error := some (jsOrS msg.detail (jsOrS msg.message "Unknown error"))
      messages }
  else if msg.type = "connection_established" then
    { st with connectionStatus := ConnStatus.connected, messages }
  else if msg.type = "adaptive" then
    { st with
      messages
      userContext :=
        { st.userContext with
          preferences :=
            if msg.preferences.isSome then
              jsMergeA st.userContext.preferences (msg.preferences.getD [])
            else st.userContext.preferences } }
  else if msg.type = "context_update" then
    { st with
      messages
      userContext :=
        { st.userContext with
          preferences :=
            if msg.preferences.isSome then
              jsMergeA st.userContext.preferences (msg.preferences.getD [])
            else st.userContext.preferences } }
  else if msg.type = "gui_update" then
    handleGuiUpdate gen st msg messages
  else
    { st with messages }

/-- The store's single inbound entry point `handleMessage`. -/
def handleMessage (gen : Gen) (st : Store) (msg : Message) : Store :=
  handleByType gen st msg (appendOrReplace st.messages msg)

/-- readyState of a transport connection; `opened` models
`WebSocket.OPEN`. -/
inductive ReadyState where
  | connecting
  | opened
  | closing
  | closed
deriving Repr, DecidableEq

/-- A live transport connection (`wsRef.current`). -/
structure WsConn where
  url : String
  readyState : ReadyState
deriving Repr, DecidableEq

/-- The stream URL built from the session identifier
(`ws://localhost:8001/api/stream/SESSION`). -/
def wsUrlFor (sessionId : String) : String :=
  "ws://localhost:8001/api/stream/" ++ sessionId

/-- The connection manager's state: the current session identifier
(`sessionIdRef.current`) and the current connection (`wsRef.current`). -/
structure ConnState where
  sessionId : String
  ws : Option WsConn
deriving Repr, DecidableEq

/-- Externally observable effects of one `connect` call: how many existing
connections were closed and how many new transport connections were
created. -/
structure ConnectEffects where
  closes : Nat := 0
  newConnections : Nat := 0
deriving Repr, DecidableEq

/-- The `connect` callback (useWebSocket lines 28-42, observable part):
bail out on an empty session identifier; bail out while the current
connection is `OPEN`; otherwise close any existing connection and create a
new one whose URL embeds the session identifier. -/
def connectStep (st : ConnState) : ConnState × ConnectEffects :=
  if st.sessionId = "" then (st, {})
  else if st.ws.map WsConn.readyState == some ReadyState.opened then (st, {})
  else
    ({ st with
       ws := some { url := wsUrlFor st.sessionId
                    readyState := ReadyState.connecting } },
     { closes := if st.ws.isSome then 1 else 0, newConnections := 1 })

/-- Externally observable effects of one `ws.onclose` invocation: the
sequence of `setConnectionStatus` calls made, and the delays of the
reconnect attempts scheduled with `setTimeout`. -/
structure CloseEffects where
  statuses : List ConnStatus
  scheduledDelays : List Nat
deriving Repr, DecidableEq

/-- The `ws.onclose` handler (useWebSocket lines 50-60): always sets status
to disconnected; then, only when the close code is not the normal-closure
code 1000 and the session identifier is still set, sets status to
reconnecting and schedules one reconnect 2000 ms later. -/
def oncloseStep (code : Nat) (sessionId : String) : CloseEffects :=
  if code ≠ 1000 ∧ sessionId ≠ "" then
    { statuses := [ConnStatus.disconnected, ConnStatus.reconnecting]
      scheduledDelays := [2000] }
  else { statuses := [ConnStatus.disconnected], scheduledDelays := [] }

/-- State of one mounted `useStreamingMessage` instance.  `timerActive`
models whether `streamIntervalRef.current` holds a live interval;
`currentIndex` is the closure variable of the reveal loop. -/
structure StreamState where
  displayedText : List Char := []
  isStreaming : Bool := false
  showCursor : Bool := false
  isComplete : Bool := false
  currentIndex : Nat := 0
  timerActive : Bool := false
deriving Repr, DecidableEq

/-- The hook's initial state (the `useState` initializers). -/
def initialStream : StreamState := {}

/-- Line 19 of the hook:
`message.content || message.message || message.detail || ''`. -/
def fullTextOf (msg : Message) : String :=
  jsOrS msg.content (jsOrS msg.message (jsOrS msg.detail ""))

/-- The `startStreaming` callback (lines 23-32): no-op unless the message
is an `ai_message` with non-empty text and no stream is running; otherwise
reset the display and arm the reveal timer. -/
def startStreaming (msgType : String) (fullText : List Char)
    (st : StreamState) : StreamState :=
  if msgType ≠ "ai_message" ∨ fullText = [] ∨ st.isStreaming then st
  else
    { displayedText := []
      isStreaming := true
      showCursor := true
      isComplete := false
      currentIndex := 0
      timerActive := true }

/-- One firing of the reveal interval (lines 32-54): while characters
remain, append the character at `currentIndex` and advance; once the text
is exhausted, clear the interval, stop streaming, hide the cursor and mark
complete. -/
def tick (fullText : List Char) (st : StreamState) : StreamState :=
  if ¬ st.timerActive then st
  else if st.currentIndex < fullText.length then
    { st with
      displayedText := st.displayedText ++ [fullText.getD st.currentIndex ' ']
      currentIndex := st.currentIndex + 1 }
  else
    { st with
      timerActive := false
      isStreaming := false
      showCursor := false
      isComplete := true }

/-- The `stopStreaming` callback (lines 57-66): clear the interval, stop
streaming, hide the cursor, show the full text, mark complete. -/
def stopStreaming (fullText : List Char) (st : StreamState) : StreamState :=
  { st with
    timerActive := false
    isStreaming := false
    showCursor := false
    displayedText := fullText
    isComplete := true }

/-- The message-update effect (lines 80-113): partial `ai_message`s show
their text verbatim and stay streaming; final ones complete immediately;
fresh ones start the reveal loop; messages of any other type complete
immediately with the full text; an `ai_message` with empty text matches
neither branch and leaves the state untouched. -/
def messageUpdateEffect (msg : Message) (st : StreamState) : StreamState :=
  if msg.type = "ai_message" ∧ (fullTextOf msg).data ≠ [] then
    if truthyB msg.isPartial then
      { st with
        displayedText := (fullTextOf msg).data
        showCursor := true
        isStreaming := true
        isComplete := false }
    else if truthyB msg.isCompleteFlag then
      { st with
        displayedText := (fullTextOf msg).data
        isStreaming := false
        showCursor := false
        isComplete := true }
    else if ¬ st.isStreaming ∧ ¬ st.isComplete then
      startStreaming msg.type (fullTextOf msg).data st
    else st
  else if ¬ (msg.type = "ai_message") then
    { st with
      displayedText := (fullTextOf msg).data
      isStreaming := false
      showCursor := false
      isComplete := true }
  else st

/-! Fixed nondeterminism environment and concrete fixtures used by the
closed witnesses and counterexamples below. -/

/-- A concrete ambient environment. -/
def gen0 : Gen := { nowMs := 0, nowIso := "t0", rand := "r" }

/-! Helper lemmas. -/

/-- A successful `findIdx?` finds a valid index whose element satisfies the
predicate, and it is the first such index. -/
lemma findIdx?_first {α : Type} [Inhabited α] (p : α → Bool) (l : List α)
    (i : Nat) (h : l.findIdx? p = some i) :
    i < l.length ∧ p (l.getD i default) = true ∧
      ∀ j, j < i → p (l.getD j default) = false := by
  have hex : ∃ x ∈ l, p x = true := by
    by_contra hc
    push_neg at hc
    have hnone : l.findIdx? p = none :=
      List.findIdx?_eq_none_iff.mpr (fun x hx => by simpa using hc x hx)
    rw [hnone] at h
    exact Option.noConfusion h
  have hfi : l.findIdx p = i := by
    have hq := List.findIdx_eq_findIdx? p l
    rw [h] at hq
    simpa using hq
  have hlt : i < l.length := by
    have := List.findIdx_lt_length.mpr hex
    rwa [hfi] at this
  refine ⟨hlt, ?_, ?_⟩
  · have hp : p (l[i]) = true := by
      have hw : l.findIdx p < l.length := by rw [hfi]; exact hlt
      have := @List.findIdx_getElem _ p l hw
      simpa [hfi] using this
    rw [List.getD_eq_getElem?_getD, List.getElem?_eq_getElem hlt]
    simpa using hp
  · intro j hj
    have hjlt : j < l.length := lt_trans hj hlt
    have hp : p (l[j]) = false := List.not_of_lt_findIdx (by rw [hfi]; exact hj)
    rw [List.getD_eq_getElem?_getD, List.getElem?_eq_getElem hjlt]
    simpa using hp

/-- The `broll_finder` message push only appends. -/
lemma toolResultMessages_extends (gen : Gen) (msg : Message)
    (r : ResultPayload) (messages : List Message) :
    ∃ rest, toolResultMessages gen msg r messages = messages ++ rest := by
  unfold toolResultMessages
  split
  · exact ⟨_, rfl⟩
  · exact ⟨[], by simp⟩

/-- The `tool_result` case only appends to the message log. -/
lemma handleToolResult_messages_extends (gen : Gen) (st : Store)
    (msg : Message) (messages : List Message) :
    ∃ rest, (handleToolResult gen st msg messages).messages = messages ++ rest := by
  unfold handleToolResult
  repeat' split
  all_goals first
    | simpa using toolResultMessages_extends gen msg _ messages
    | exact ⟨[], by simp⟩

/-- The `gui_update` case leaves the message log as computed by step 1. -/
lemma handleGuiUpdate_messages (gen : Gen) (st : Store) (msg : Message)
    (messages : List Message) :
    (handleGuiUpdate gen st msg messages).messages = messages := by
  unfold handleGuiUpdate
  split <;> rfl

/-- Every branch of the type dispatch only appends to the already-computed
message log: the log computed by step 1 starts the final log. -/
lemma handleByType_messages_extends (gen : Gen) (st : Store) (msg : Message)
    (messages : List Message) :
    ∃ rest, (handleByType gen st msg messages).messages = messages ++ rest := by
  unfold handleByType
  repeat' split
  all_goals first
    | exact handleToolResult_messages_extends gen st msg messages
    | exact ⟨[], (handleGuiUpdate_messages gen st msg messages).trans (by simp)⟩
    | exact ⟨[], by simp⟩

/-- When a truthy string is present, `a || b` returns it. -/
lemma jsOrS_of_truthy (a : Option String) (b : String)
    (h : truthyS a = true) : some (jsOrS a b) = a := by
  cases a with
  | none => simp [truthyS] at h
  | some s =>
    simp only [truthyS, decide_eq_true_eq] at h
    simp [jsOrS, h]

/-- When the string is absent or empty, `a || b` falls back to `b`. -/
lemma jsOrS_of_not_truthy (a : Option String) (b : String)
    (h : truthyS a = false) : jsOrS a b = b := by
  cases a with
  | none => simp [jsOrS]
  | some s =>
    simp only [truthyS] at h
    simp only [decide_eq_false_iff_not, not_not] at h
    simp [jsOrS, h]

/-- Step 1 under a replace: the log is the old log with position `i`
overwritten by the shallow merge. -/
lemma appendOrReplace_of_found (log : List Message) (msg : Message) (i : Nat)
    (h1 : truthyS msg.message_id = true) (h2 : truthyB msg.isPartial = true)
    (hfind : log.findIdx? (fun m => m.message_id == msg.message_id) = some i) :
    appendOrReplace log msg = log.set i (mergeMsg (log.getD i default) msg) := by
  unfold appendOrReplace
  simp only [h1, h2, Bool.and_self, if_true]
  rw [hfind]

/-- Step 1 under an append: the incoming message is pushed at the end. -/
lemma appendOrReplace_of_push (log : List Message) (msg : Message)
    (halt : (truthyS msg.message_id && truthyB msg.isPartial) = false
      ∨ log.findIdx? (fun m => m.message_id == msg.message_id) = none) :
    appendOrReplace log msg = log ++ [msg] := by
  unfold appendOrReplace
  rcases halt with hg | hn
  · simp [hg]
  · by_cases hg : (truthyS msg.message_id && truthyB msg.isPartial) = true
    · simp only [hg, if_true]
      rw [hn]
    · simp only [Bool.not_eq_true] at hg
      simp [hg]

/-- Dispatch reduction for `progress` messages. -/
lemma handleMessage_progress (gen : Gen) (st : Store) (msg : Message)
    (h : msg.type = "progress") :
    handleMessage gen st msg =
      { st with
        progress := { percent := msg.percent.getD st.progress.percent
                      status := jsOrS msg.status ""
                      step := jsOrS msg.step "" }
        messages := appendOrReplace st.messages msg } := by
  unfold handleMessage handleByType
  simp [h]

/-- Dispatch reduction for `error` messages. -/
lemma handleMessage_error (gen : Gen) (st : Store) (msg : Message)
    (h : msg.type = "error") :
    handleMessage gen st msg =
      { st with
        error := some (jsOrS msg.detail (jsOrS msg.message "Unknown error"))
        messages := appendOrReplace st.messages msg } := by
  unfold handleMessage handleByType
  simp [h]

/-- Dispatch reduction for `connection_established` messages. -/
lemma handleMessage_connEst (gen : Gen) (st : Store) (msg : Message)
    (h : msg.type = "connection_established") :
    handleMessage gen st msg =
      { st with
        connectionStatus := ConnStatus.connected
        messages := appendOrReplace st.messages msg } := by
  unfold handleMessage handleByType
  simp [h]

/-- Dispatch reduction for `tool_result` messages. -/
lemma handleMessage_eq_toolResult (gen : Gen) (st : Store) (msg : Message)
    (h : msg.type = "tool_result") :
    handleMessage gen st msg =
      handleToolResult gen st msg (appendOrReplace st.messages msg) := by
  unfold handleMessage handleByType
  simp [h]

/-- Dispatch reduction for `gui_update` messages. -/
lemma handleMessage_eq_gui (gen : Gen) (st : Store) (msg : Message)
    (h : msg.type = "gui_update") :
    handleMessage gen st msg =
      handleGuiUpdate gen st msg (appendOrReplace st.messages msg) := by
  unfold handleMessage handleByType
  simp [h]

/-! Claim C1. -/

def c1m1 : Message :=
  { type := "ai_message", message_id := some "a", content := some "one" }

def c1m2 : Message :=
  { type := "ai_message", message_id := some "a", content := some "two" }

def c1m3 : Message :=
  { type := "ai_message", message_id := some "a", content := some "three"
    isPartial := some true }

def c1stW : Store := { initialStore with messages := [c1m1, c1m2] }

/-- Claim C1, counterexample.  Dispatch two non-partial messages that share
`message_id` "a", then a partial update for "a".  The claim predicts that
the most recent entry (index 1) is replaced, i.e. a final log
`[c1m1, mergeMsg c1m2 c1m3]`; the code's `findIndex` replaces the first
matching entry (index 0) instead, yielding `[mergeMsg c1m1 c1m3, c1m2]`. -/
theorem claim_C1_counterexample :
    (handleMessage gen0 (handleMessage gen0 (handleMessage gen0 initialStore
        c1m1) c1m2) c1m3).messages = [mergeMsg c1m1 c1m3, c1m2]
  ∧ (handleMessage gen0 (handleMessage gen0 (handleMessage gen0 initialStore
        c1m1) c1m2) c1m3).messages ≠ [c1m1, mergeMsg c1m2 c1m3] := by
  decide

/-- Claim C1 (amended: "most recent" becomes "first/earliest").  A message
with a truthy `message_id` and `is_partial` replaces the earliest log entry
sharing its `message_id` by shallow merge (the entries before it provably
do not match); a message failing the guard, or matching no entry, is
appended to the end of the log (entries a branch then synthesizes may
follow it, hence the `take`). -/
theorem claim_C1 (gen : Gen) (st : Store) (msg : Message) :
    (∀ i, truthyS msg.message_id = true → truthyB msg.isPartial = true →
        st.messages.findIdx? (fun m => m.message_id == msg.message_id) = some i →
        (handleMessage gen st msg).messages.take st.messages.length
            = st.messages.set i (mergeMsg (st.messages.getD i default) msg)
          ∧ ∀ j, j < i →
              ((st.messages.getD j default).message_id == msg.message_id) = false)
  ∧ (((truthyS msg.message_id && truthyB msg.isPartial) = false
        ∨ st.messages.findIdx? (fun m => m.message_id == msg.message_id) = none) →
      (handleMessage gen st msg).messages.take (st.messages.length + 1)
          = st.messages ++ [msg]) := by
  constructor
  · intro i h1 h2 hfind
    have hset := appendOrReplace_of_found st.messages msg i h1 h2 hfind
    obtain ⟨rest, hrest⟩ :=
      handleByType_messages_extends gen st msg (appendOrReplace st.messages msg)
    refine ⟨?_, fun j hj => (findIdx?_first _ _ i hfind).2.2 j hj⟩
    show (handleByType gen st msg (appendOrReplace st.messages msg)).messages.take
        st.messages.length = _
    rw [hrest, hset]
    have hlen : (st.messages.set i
        (mergeMsg (st.messages.getD i default) msg)).length = st.messages.length :=
      List.length_set st.messages i _
    rw [← hlen]
    exact List.take_left _ _
  · intro halt
    have hset := appendOrReplace_of_push st.messages msg halt
    obtain ⟨rest, hrest⟩ :=
      handleByType_messages_extends gen st msg (appendOrReplace st.messages msg)
    show (handleByType gen st msg (appendOrReplace st.messages msg)).messages.take
        (st.messages.length + 1) = _
    rw [hrest, hset]
    have hlen : (st.messages ++ [msg]).length = st.messages.length + 1 := by simp
    rw [← hlen]
    exact List.take_left _ _

/-- Claim C1, witness: a concrete replace (at index 0 of a two-entry log)
and a concrete append. -/
theorem claim_C1_witness :
    ((handleMessage gen0 c1stW c1m3).messages.take c1stW.messages.length
        = c1stW.messages.set 0 (mergeMsg (c1stW.messages.getD 0 default) c1m3)
      ∧ ∀ j, j < 0 →
          ((c1stW.messages.getD j default).message_id == c1m3.message_id) = false)
  ∧ (handleMessage gen0 initialStore c1m1).messages.take
        (initialStore.messages.length + 1)
      = initialStore.messages ++ [c1m1] := by
  constructor
  · exact (claim_C1 gen0 c1stW c1m3).1 0 (by decide) (by decide) (by decide)
  · exact (claim_C1 gen0 initialStore c1m1).2 (Or.inl (by decide))

/-! Claim C2. -/

def c2p1 : Message :=
  { type := "progress", percent := some 10, status := some "start"
    step := some "script" }

def c2p2 : Message := { type := "progress", percent := some 40 }

/-- Claim C2, counterexample.  The claim's own example: after
`{percent:10, status:"start", step:"script"}` then `{percent:40}`, the
claim predicts `{40, "start", "script"}`; the code resets the absent
`status` and `step` fields to the empty string (`msg.status || ''`), so
the store holds `{40, "", ""}`. -/
theorem claim_C2_counterexample :
    (handleMessage gen0 (handleMessage gen0 initialStore c2p1) c2p2).progress
        = { percent := 40, status := "", step := "" }
  ∧ (handleMessage gen0 (handleMessage gen0 initialStore c2p1) c2p2).progress
        ≠ { percent := 40, status := "start", step := "script" } := by
  decide

/-- Claim C2 (amended).  On a `progress` dispatch, `percent` takes the
incoming value when present and otherwise keeps its previous value
(nullish coalescing); `status` and `step` take the incoming value when
present and non-empty, and are otherwise reset to the empty string — they
do not retain their previous values. -/
theorem claim_C2 (gen : Gen) (st : Store) (msg : Message)
    (h : msg.type = "progress") :
    (msg.percent = none →
        (handleMessage gen st msg).progress.percent = st.progress.percent)
  ∧ (∀ v, msg.percent = some v →
        (handleMessage gen st msg).progress.percent = v)
  ∧ (truthyS msg.status = true →
        some (handleMessage gen st msg).progress.status = msg.status)
  ∧ (truthyS msg.status = false →
        (handleMessage gen st msg).progress.status = "")
  ∧ (truthyS msg.step = true →
        some (handleMessage gen st msg).progress.step = msg.step)
  ∧ (truthyS msg.step = false →
        (handleMessage gen st msg).progress.step = "") := by
  rw [handleMessage_progress gen st msg h]
  refine ⟨fun hp => ?_, fun v hp => ?_, fun hs => ?_, fun hs => ?_,
    fun hs => ?_, fun hs => ?_⟩
  · show msg.percent.getD st.progress.percent = st.progress.percent
    rw [hp]; rfl
  · show msg.percent.getD st.progress.percent = v
    rw [hp]; rfl
  · exact jsOrS_of_truthy msg.status "" hs
  · exact jsOrS_of_not_truthy msg.status "" hs
  · exact jsOrS_of_truthy msg.step "" hs
  · exact jsOrS_of_not_truthy msg.step "" hs

/-- Claim C2, witness: the amended behaviour at the concrete second
dispatch of the counterexample. -/
theorem claim_C2_witness :
    (handleMessage gen0 initialStore c2p2).progress.percent = 40
  ∧ (handleMessage gen0 initialStore c2p2).progress.status = ""
  ∧ (handleMessage gen0 initialStore c2p2).progress.step = "" :=
  ⟨(claim_C2 gen0 initialStore c2p2 rfl).2.1 40 rfl,
   (claim_C2 gen0 initialStore c2p2 rfl).2.2.2.1 rfl,
   (claim_C2 gen0 initialStore c2p2 rfl).2.2.2.2.2 rfl⟩

/-! Claim C5. -/

def c5msg : Message := { type := "connection_established" }

/-- Claim C5, counterexample.  A `connection_established` dispatch does
not leave `connectionStatus` unchanged, contrary to the claim's "changes
nothing else" list: from the initial (disconnected) store it flips the
status to connected. -/
theorem claim_C5_counterexample :
    (handleMessage gen0 initialStore c5msg).connectionStatus
        ≠ initialStore.connectionStatus
  ∧ (handleMessage gen0 initialStore c5msg).connectionStatus
        = ConnStatus.connected := by
  decide

/-- Claim C5 (amended).  A `connection_established` dispatch (that is not
a partial update to an existing entry) appends the message to the log,
sets `connectionStatus` to connected, and leaves every other store field
unchanged. -/
theorem claim_C5 (gen : Gen) (st : Store) (msg : Message)
    (h : msg.type = "connection_established")
    (hp : (truthyS msg.message_id && truthyB msg.isPartial) = false) :
    (handleMessage gen st msg).messages = st.messages ++ [msg]
  ∧ (handleMessage gen st msg).connectionStatus = ConnStatus.connected
  ∧ (handleMessage gen st msg).toolCalls = st.toolCalls
  ∧ (handleMessage gen st msg).toolResults = st.toolResults
  ∧ (handleMessage gen st msg).progress = st.progress
  ∧ (handleMessage gen st msg).scripts = st.scripts
  ∧ (handleMessage gen st msg).projectFiles = st.projectFiles
  ∧ (handleMessage gen st msg).videoPreviews = st.videoPreviews
  ∧ (handleMessage gen st msg).userContext = st.userContext
  ∧ (handleMessage gen st msg).selectedFile = st.selectedFile
  ∧ (handleMessage gen st msg).error = st.error := by
  rw [handleMessage_connEst gen st msg h]
  exact ⟨appendOrReplace_of_push st.messages msg (Or.inl hp),
    rfl, rfl, rfl, rfl, rfl, rfl, rfl, rfl, rfl, rfl⟩

/-- Claim C5, witness at the initial store. -/
theorem claim_C5_witness :
    (handleMessage gen0 initialStore c5msg).messages
        = initialStore.messages ++ [c5msg]
  ∧ (handleMessage gen0 initialStore c5msg).connectionStatus
        = ConnStatus.connected
  ∧ (handleMessage gen0 initialStore c5msg).toolCalls = initialStore.toolCalls
  ∧ (handleMessage gen0 initialStore c5msg).toolResults
        = initialStore.toolResults
  ∧ (handleMessage gen0 initialStore c5msg).progress = initialStore.progress
  ∧ (handleMessage gen0 initialStore c5msg).scripts = initialStore.scripts
  ∧ (handleMessage gen0 initialStore c5msg).projectFiles
        = initialStore.projectFiles
  ∧ (handleMessage gen0 initialStore c5msg).videoPreviews
        = initialStore.videoPreviews
  ∧ (handleMessage gen0 initialStore c5msg).userContext
        = initialStore.userContext
  ∧ (handleMessage gen0 initialStore c5msg).selectedFile
        = initialStore.selectedFile
  ∧ (handleMessage gen0 initialStore c5msg).error = initialStore.error :=
  claim_C5 gen0 initialStore c5msg rfl rfl

/-! Claim C9. -/

def c9empty : Message :=
  { type := "error", detail := some "", message := some "m" }

def c9boom : Message := { type := "error", detail := some "boom" }

/-- Claim C9, counterexample.  The claim says the error slot takes the
`detail` field whenever it is present; with `detail` present but empty
(`""`) and `message` = "m", the code's `msg.detail || msg.message` falls
through to "m", so the slot does not equal the `detail` field. -/
theorem claim_C9_counterexample :
    (handleMessage gen0 initialStore c9empty).error = some "m"
  ∧ (handleMessage gen0 initialStore c9empty).error ≠ c9empty.detail := by
  decide

/-- Claim C9 (amended).  An `error` dispatch sets the error slot to
`detail` when present and non-empty, else to `message` when present and
non-empty, else to the fixed string "Unknown error", and (when not a
partial update) appends the error message to the log. -/
theorem claim_C9 (gen : Gen) (st : Store) (msg : Message)
    (h : msg.type = "error") :
    (truthyS msg.detail = true → (handleMessage gen st msg).error = msg.detail)
  ∧ (truthyS msg.detail = false → truthyS msg.message = true →
        (handleMessage gen st msg).error = msg.message)
  ∧ (truthyS msg.detail = false → truthyS msg.message = false →
        (handleMessage gen st msg).error = some "Unknown error")
  ∧ ((truthyS msg.message_id && truthyB msg.isPartial) = false →
        (handleMessage gen st msg).messages = st.messages ++ [msg]) := by
  rw [handleMessage_error gen st msg h]
  refine ⟨fun hd => ?_, fun hd hm => ?_, fun hd hm => ?_,
    fun hp => appendOrReplace_of_push st.messages msg (Or.inl hp)⟩
  · show some (jsOrS msg.detail (jsOrS msg.message "Unknown error")) = msg.detail
    exact jsOrS_of_truthy msg.detail _ hd
  · show some (jsOrS msg.detail (jsOrS msg.message "Unknown error")) = msg.message
    rw [jsOrS_of_not_truthy msg.detail _ hd]
    exact jsOrS_of_truthy msg.message _ hm
  · show some (jsOrS msg.detail (jsOrS msg.message "Unknown error"))
        = some "Unknown error"
    rw [jsOrS_of_not_truthy msg.detail _ hd, jsOrS_of_not_truthy msg.message _ hm]

/-- Claim C9, witness: the claim's own scenario `error{detail:"boom"}`. -/
theorem claim_C9_witness :
    (handleMessage gen0 initialStore c9boom).error = c9boom.detail
  ∧ (handleMessage gen0 initialStore c9boom).messages
        = initialStore.messages ++ [c9boom] :=
  ⟨(claim_C9 gen0 initialStore c9boom rfl).1 (by decide),
   (claim_C9 gen0 initialStore c9boom rfl).2.2.2 rfl⟩

/-! Claim C3. -/

/-- Under the `script_writer` guards the scripts list grows by exactly the
new entry. -/
lemma toolResultScripts_script (gen : Gen) (msg : Message) (r : ResultPayload)
    (scripts : List ScriptContent) (htool : msg.tool = some "script_writer")
    (hst : truthyS r.script_text = true) :
    toolResultScripts gen msg r scripts
      = scripts ++ [scriptEntry gen (r.script_text.getD "")] := by
  unfold toolResultScripts scriptWriterGuard
  simp [htool, hst]

/-- Under the `script_writer` guards the project files are exactly the old
ones with script-typed entries filtered out. -/
lemma toolResultProjectFiles_script (gen : Gen) (msg : Message)
    (r : ResultPayload) (pf : List ProjectFile)
    (htool : msg.tool = some "script_writer")
    (hst : truthyS r.script_text = true) :
    toolResultProjectFiles gen msg r pf
      = pf.filter (fun file => ¬ (file.type = "script")) := by
  unfold toolResultProjectFiles scriptWriterGuard brollGuard
  simp [htool, hst]

/-- Under the `script_created` guards the scripts list grows by exactly
the new entry. -/
lemma guiScripts_script (gen : Gen) (msg : Message)
    (scripts : List ScriptContent)
    (hupd : msg.update_type = some "script_created")
    (hsc : truthyS (msg.data.bind GuiData.script_content) = true) :
    guiScripts gen msg scripts
      = scripts ++
          [scriptEntry gen ((msg.data.bind GuiData.script_content).getD "")] := by
  unfold guiScripts guiScriptGuard
  simp [hupd, hsc]

/-- Under the `script_created` guards the project files are exactly the
old ones with script-typed entries filtered out. -/
lemma guiProjectFiles_script (gen : Gen) (msg : Message)
    (pf : List ProjectFile)
    (hupd : msg.update_type = some "script_created")
    (hsc : truthyS (msg.data.bind GuiData.script_content) = true) :
    guiProjectFiles gen msg pf
      = pf.filter (fun file => ¬ (file.type = "script")) := by
  unfold guiProjectFiles guiScriptGuard
  simp [hupd, hsc]

/-- Filtering out script-typed files leaves no script-typed file. -/
lemma countP_script_filter (pf : List ProjectFile) :
    (pf.filter (fun file => ¬ (file.type = "script"))).countP
      (fun f => f.type == "script") = 0 := by
  rw [List.countP_eq_zero]
  intro a ha hbeq
  have h2 := (List.mem_filter.mp ha).2
  simp only [decide_not, Bool.not_eq_true', decide_eq_false_iff_not] at h2
  simp only [beq_iff_eq] at hbeq
  exact h2 hbeq

/-- Claim C3 (confirmed).  After a successful `script_writer` tool result
carrying `result.script_text`, or a `gui_update`/`script_created` carrying
`data.script_content`, the store holds zero script-typed project files and
exactly one more script, whatever the store held before. -/
theorem claim_C3 (gen : Gen) (st : Store) (msg : Message)
    (h : (msg.type = "tool_result" ∧ truthyB msg.success = true
            ∧ msg.result.isSome = true ∧ msg.tool = some "script_writer"
            ∧ truthyS (msg.result.getD {}).script_text = true)
       ∨ (msg.type = "gui_update" ∧ msg.update_type = some "script_created"
            ∧ truthyS (msg.data.bind GuiData.script_content) = true)) :
    (handleMessage gen st msg).projectFiles.countP
        (fun f => f.type == "script") = 0
  ∧ (handleMessage gen st msg).scripts.length = st.scripts.length + 1 := by
  rcases h with ⟨ht, hs, hr, htool, hst⟩ | ⟨ht, hupd, hsc⟩
  · rw [handleMessage_eq_toolResult gen st msg ht]
    unfold handleToolResult
    have hg : (truthyB msg.success && msg.result.isSome) = true := by
      rw [hs, hr]; rfl
    rw [if_pos hg]
    have hv : ¬((msg.tool == some "video_processor" &&
        truthyS (msg.result.getD {}).video_path) = true) := by
      rw [htool]; simp
    rw [if_neg hv]
    constructor
    · show (toolResultProjectFiles gen msg (msg.result.getD {})
          st.projectFiles).countP (fun f => f.type == "script") = 0
      rw [toolResultProjectFiles_script gen msg _ _ htool hst]
      exact countP_script_filter st.projectFiles
    · show (toolResultScripts gen msg (msg.result.getD {}) st.scripts).length
          = st.scripts.length + 1
      rw [toolResultScripts_script gen msg _ _ htool hst]
      simp
  · rw [handleMessage_eq_gui gen st msg ht]
    unfold handleGuiUpdate
    have hv : ¬((msg.update_type == some "video_created" &&
        truthyS (msg.data.bind GuiData.final_video)) = true) := by
      rw [hupd]; simp
    rw [if_neg hv]
    constructor
    · show (guiProjectFiles gen msg st.projectFiles).countP
          (fun f => f.type == "script") = 0
      rw [guiProjectFiles_script gen msg _ hupd hsc]
      exact countP_script_filter st.projectFiles
    · show (guiScripts gen msg st.scripts).length = st.scripts.length + 1
      rw [guiScripts_script gen msg _ hupd hsc]
      simp

def c3seeded : Store :=
  { initialStore with
    projectFiles := [{ id := "s1", name := "old script", type := "script" }] }

def c3msg : Message :=
  { type := "tool_result", tool := some "script_writer", success := some true
    result := some { script_text := some "SCRIPT" } }

/-- Claim C3, witness: the spec's own test — seed a script-typed
ProjectFile, dispatch a `script_writer` result. -/
theorem claim_C3_witness :
    (handleMessage gen0 c3seeded c3msg).projectFiles.countP
        (fun f => f.type == "script") = 0
  ∧ (handleMessage gen0 c3seeded c3msg).scripts.length
        = c3seeded.scripts.length + 1 :=
  claim_C3 gen0 c3seeded c3msg
    (Or.inl ⟨rfl, rfl, rfl, rfl, by decide⟩)

/-! Claim C10. -/

/-- Claim C10 (confirmed).  A successful `broll_finder` tool result whose
payload carries a non-empty `message`, dispatched as a normal (non-partial)
message, grows the log by two entries: the tool result itself followed by
a synthetic informational message whose content is `result.message`. -/
theorem claim_C10 (gen : Gen) (st : Store) (msg : Message) (r : ResultPayload)
    (ht : msg.type = "tool_result") (htool : msg.tool = some "broll_finder")
    (hs : truthyB msg.success = true) (hr : msg.result = some r)
    (hm : truthyS r.message = true)
    (hp : (truthyS msg.message_id && truthyB msg.isPartial) = false) :
    (handleMessage gen st msg).messages.length = st.messages.length + 2
  ∧ (handleMessage gen st msg).messages.take (st.messages.length + 1)
        = st.messages ++ [msg]
  ∧ ((handleMessage gen st msg).messages.getLast?).map Message.content
        = some r.message
  ∧ ((handleMessage gen st msg).messages.getLast?).map Message.type
        = some "informational" := by
  have happ := appendOrReplace_of_push st.messages msg (Or.inl hp)
  rw [handleMessage_eq_toolResult gen st msg ht]
  unfold handleToolResult
  have hg : (truthyB msg.success && msg.result.isSome) = true := by
    rw [hs, hr]; rfl
  rw [if_pos hg]
  have hv : ¬((msg.tool == some "video_processor" &&
      truthyS (msg.result.getD {}).video_path) = true) := by
    rw [htool]; simp
  rw [if_neg hv]
  have hbg : (brollGuard msg && truthyS (msg.result.getD {}).message) = true := by
    unfold brollGuard
    rw [htool, hr]
    simpa using hm
  have hmsgs : toolResultMessages gen msg (msg.result.getD {})
      (appendOrReplace st.messages msg)
      = (st.messages ++ [msg]) ++
          [brollInfoMessage gen ((msg.result.getD {}).message.getD "")] := by
    unfold toolResultMessages
    rw [if_pos hbg, happ]
  obtain ⟨s, hsome⟩ : ∃ s, r.message = some s := by
    cases hmm : r.message with
    | none => rw [hmm] at hm; exact absurd hm (by simp [truthyS])
    | some s => exact ⟨s, rfl⟩
  refine ⟨?_, ?_, ?_, ?_⟩
  · show (toolResultMessages gen msg (msg.result.getD {})
        (appendOrReplace st.messages msg)).length = st.messages.length + 2
    rw [hmsgs]; simp
  · show (toolResultMessages gen msg (msg.result.getD {})
        (appendOrReplace st.messages msg)).take (st.messages.length + 1)
        = st.messages ++ [msg]
    rw [hmsgs]
    have hlen : (st.messages ++ [msg]).length = st.messages.length + 1 := by simp
    rw [← hlen]
    exact List.take_left _ _
  · show ((toolResultMessages gen msg (msg.result.getD {})
        (appendOrReplace st.messages msg)).getLast?).map Message.content
        = some r.message
    rw [hmsgs, List.getLast?_concat]
    rw [hr]
    show some (brollInfoMessage gen (r.message.getD "")).content = some r.message
    rw [hsome]
    rfl
  · show ((toolResultMessages gen msg (msg.result.getD {})
        (appendOrReplace st.messages msg)).getLast?).map Message.type
        = some "informational"
    rw [hmsgs, List.getLast?_concat]
    rfl

def c10msg : Message :=
  { type := "tool_result", tool := some "broll_finder", success := some true
    result := some { message := some "found 3 clips" } }

/-- Claim C10, witness at the initial store. -/
theorem claim_C10_witness :
    (handleMessage gen0 initialStore c10msg).messages.length
        = initialStore.messages.length + 2
  ∧ (handleMessage gen0 initialStore c10msg).messages.take
        (initialStore.messages.length + 1)
      = initialStore.messages ++ [c10msg]
  ∧ ((handleMessage gen0 initialStore c10msg).messages.getLast?).map
        Message.content = some (some "found 3 clips")
  ∧ ((handleMessage gen0 initialStore c10msg).messages.getLast?).map
        Message.type = some "informational" :=
  claim_C10 gen0 initialStore c10msg { message := some "found 3 clips" }
    rfl rfl rfl rfl (by decide) rfl

/-! Claim C4. -/

/-- Claim C4 (confirmed).  A non-normal closure (code other than 1000)
while the session identifier is still set schedules exactly one reconnect,
2000 ms later, and leaves the status at reconnecting for the wait; a
normal closure or a cleared session identifier schedules none. -/
theorem claim_C4 (code : Nat) (sessionId : String) :
    (code ≠ 1000 → sessionId ≠ "" →
        (oncloseStep code sessionId).scheduledDelays = [2000]
      ∧ (oncloseStep code sessionId).statuses.getLast?
            = some ConnStatus.reconnecting)
  ∧ ((code = 1000 ∨ sessionId = "") →
        (oncloseStep code sessionId).scheduledDelays = []) := by
  constructor
  · intro h1 h2
    unfold oncloseStep
    rw [if_pos ⟨h1, h2⟩]
    exact ⟨rfl, rfl⟩
  · intro halt
    unfold oncloseStep
    rw [if_neg (by rcases halt with h | h <;> simp [h])]

/-- Claim C4, witness: abnormal closure 1006 with a live session, and
normal closure 1000. -/
theorem claim_C4_witness :
    ((oncloseStep 1006 "s1").scheduledDelays = [2000]
      ∧ (oncloseStep 1006 "s1").statuses.getLast?
            = some ConnStatus.reconnecting)
  ∧ (oncloseStep 1000 "s1").scheduledDelays = [] :=
  ⟨(claim_C4 1006 "s1").1 (by decide) (by decide),
   (claim_C4 1000 "s1").2 (Or.inl rfl)⟩

/-! Claim C6. -/

/-- Claim C6 (confirmed).  Calling `connect` while a connection for the
same session identifier is already OPEN is a no-op — nothing is closed,
no new transport is created, the state (hence the one live connection) is
unchanged; calling it with an empty session identifier is likewise a
no-op. -/
theorem claim_C6 (st : ConnState) :
    (∀ w, st.ws = some w → w.readyState = ReadyState.opened →
        w.url = wsUrlFor st.sessionId →
        connectStep st = (st, { closes := 0, newConnections := 0 }))
  ∧ (st.sessionId = "" →
        connectStep st = (st, { closes := 0, newConnections := 0 })) := by
  constructor
  · intro w hw hrs _hurl
    unfold connectStep
    by_cases hsid : st.sessionId = ""
    · rw [if_pos hsid]
    · rw [if_neg hsid]
      have hc : (st.ws.map WsConn.readyState == some ReadyState.opened) = true := by
        rw [hw]
        simp [hrs]
      rw [if_pos hc]
  · intro hsid
    unfold connectStep
    rw [if_pos hsid]

def c6open : ConnState :=
  { sessionId := "s1"
    ws := some { url := wsUrlFor "s1", readyState := ReadyState.opened } }

def c6cleared : ConnState := { sessionId := "", ws := none }

/-- Claim C6, witness: a live OPEN connection for "s1", and a cleared
session identifier. -/
theorem claim_C6_witness :
    connectStep c6open = (c6open, { closes := 0, newConnections := 0 })
  ∧ connectStep c6cleared = (c6cleared, { closes := 0, newConnections := 0 }) :=
  ⟨(claim_C6 c6open).1 { url := wsUrlFor "s1", readyState := ReadyState.opened }
      rfl rfl rfl,
   (claim_C6 c6cleared).2 rfl⟩

/-! Claim C7. -/

/-- While characters remain, the reveal loop keeps this exact state: after
`k` ticks the display holds the first `k` characters and the closure index
is `k`. -/
lemma stream_run_inv (text : List Char) (h : text ≠ []) :
    ∀ k, k ≤ text.length →
      (tick text)^[k] (startStreaming "ai_message" text initialStream)
        = { displayedText := text.take k
            isStreaming := true
            showCursor := true
            isComplete := false
            currentIndex := k
            timerActive := true } := by
  intro k
  induction k with
  | zero =>
    intro _
    rw [Function.iterate_zero_apply]
    unfold startStreaming
    rw [if_neg (by simp [h, initialStream])]
    rfl
  | succ n ih =>
    intro hk
    have hn : n < text.length := hk
    rw [Function.iterate_succ_apply', ih (Nat.le_of_succ_le hk)]
    unfold tick
    simp only [Bool.not_eq_true, if_neg]
    rw [if_neg (by simp)]
    rw [if_pos hn]
    have hchar : text.getD n ' ' = text[n] := by
      rw [List.getD_eq_getElem?_getD, List.getElem?_eq_getElem hn]
      rfl
    have htake : text.take n ++ [text.getD n ' '] = text.take (n + 1) := by
      rw [List.take_succ, List.getElem?_eq_getElem hn, hchar]
      rfl
    rw [htake]

/-- Claim C7 (confirmed, for non-empty text; the empty-text case never
starts the reveal loop — see C8).  Starting the reveal loop on text of
length N: each of the first N ticks appends exactly one character
(after k ticks the display is the k-character prefix) and completion has
not happened; the N+1-st firing completes — so exactly N reveal ticks
occur before `isComplete` becomes true.  And `stopStreaming` (skip), from
any state whatsoever, shows the full text in one step, stops the timer,
hides the cursor and completes. -/
theorem claim_C7 (text : List Char) (h : text ≠ []) :
    (∀ k, k ≤ text.length →
        ((tick text)^[k] (startStreaming "ai_message" text
            initialStream)).displayedText = text.take k
      ∧ ((tick text)^[k] (startStreaming "ai_message" text
            initialStream)).isComplete = false)
  ∧ ((tick text)^[text.length + 1] (startStreaming "ai_message" text
        initialStream)).displayedText = text
  ∧ ((tick text)^[text.length + 1] (startStreaming "ai_message" text
        initialStream)).isComplete = true
  ∧ ((tick text)^[text.length + 1] (startStreaming "ai_message" text
        initialStream)).isStreaming = false
  ∧ ((tick text)^[text.length + 1] (startStreaming "ai_message" text
        initialStream)).showCursor = false
  ∧ (∀ st : StreamState,
        (stopStreaming text st).displayedText = text
      ∧ (stopStreaming text st).isComplete = true
      ∧ (stopStreaming text st).isStreaming = false
      ∧ (stopStreaming text st).showCursor = false
      ∧ (stopStreaming text st).timerActive = false) := by
  have hfin : (tick text)^[text.length + 1]
      (startStreaming "ai_message" text initialStream)
      = { displayedText := text
          isStreaming := false
          showCursor := false
          isComplete := true
          currentIndex := text.length
          timerActive := false } := by
    rw [Function.iterate_succ_apply', stream_run_inv text h text.length le_rfl]
    unfold tick
    rw [if_neg (by simp)]
    rw [if_neg (by simp)]
    rw [List.take_length]
  refine ⟨fun k hk => ?_, ?_, ?_, ?_, ?_,
    fun st => ⟨rfl, rfl, rfl, rfl, rfl⟩⟩
  · rw [stream_run_inv text h k hk]
    exact ⟨rfl, rfl⟩
  · rw [hfin]
  · rw [hfin]
  · rw [hfin]
  · rw [hfin]

def c7text : List Char := ['h', 'i']

/-- Claim C7, witness on the two-character text "hi". -/
theorem claim_C7_witness :
    (((tick c7text)^[1] (startStreaming "ai_message" c7text
          initialStream)).displayedText = c7text.take 1
      ∧ ((tick c7text)^[1] (startStreaming "ai_message" c7text
          initialStream)).isComplete = false)
  ∧ ((tick c7text)^[c7text.length + 1] (startStreaming "ai_message" c7text
        initialStream)).isComplete = true :=
  ⟨(claim_C7 c7text (by decide)).1 1 (by decide),
   (claim_C7 c7text (by decide)).2.2.1⟩

/-! Claim C8. -/

def c8empty : Message := { type := "ai_message", content := some "" }

def c8info : Message := { type := "informational", content := some "x" }

/-- Claim C8, counterexample.  For an `ai_message` whose text is empty the
claim predicts an immediate jump to complete; the effect's branches both
require either non-empty text or a non-`ai_message` type, so nothing runs:
from the initial state `isComplete` stays false. -/
theorem claim_C8_counterexample :
    fullTextOf c8empty = ""
  ∧ messageUpdateEffect c8empty initialStream = initialStream
  ∧ (messageUpdateEffect c8empty initialStream).isComplete = false := by
  decide

/-- Claim C8 (amended).  A message whose type is not `ai_message` goes
straight to complete with the full text shown; an `ai_message` with empty
text leaves the state untouched instead (so on first render the initial
state persists: empty text shown, not streaming, no cursor — but
`isComplete` remains false). -/
theorem claim_C8 (msg : Message) (st : StreamState) :
    (msg.type ≠ "ai_message" →
        (messageUpdateEffect msg st).displayedText = (fullTextOf msg).data
      ∧ (messageUpdateEffect msg st).isComplete = true
      ∧ (messageUpdateEffect msg st).isStreaming = false
      ∧ (messageUpdateEffect msg st).showCursor = false)
  ∧ (msg.type = "ai_message" → (fullTextOf msg).data = [] →
        messageUpdateEffect msg st = st) := by
  constructor
  · intro hne
    unfold messageUpdateEffect
    rw [if_neg (fun hc => hne hc.1)]
    rw [if_pos hne]
    exact ⟨rfl, rfl, rfl, rfl⟩
  · intro _he hempty
    unfold messageUpdateEffect
    rw [if_neg (fun hc => hc.2 hempty)]
    rw [if_neg (by simp [_he])]

/-- Claim C8, witness: a non-`ai_message` completes at once; an empty
`ai_message` leaves the initial state unchanged. -/
theorem claim_C8_witness :
    ((messageUpdateEffect c8info initialStream).displayedText
          = (fullTextOf c8info).data
      ∧ (messageUpdateEffect c8info initialStream).isComplete = true
      ∧ (messageUpdateEffect c8info initialStream).isStreaming = false
      ∧ (messageUpdateEffect c8info initialStream).showCursor = false)
  ∧ messageUpdateEffect c8empty initialStream = initialStream :=
  ⟨(claim_C8 c8info initialStream).1 (by decide),
   (claim_C8 c8empty initialStream).2 rfl (by decide)⟩

end SCLIP
